import Mathlib

/-!
Verification of the MHAC LiDAR processing pipeline (feromes/mhac).

Shallow embedding of the arithmetic and control-flow core of:
* `scripts/01_build_mhac_tiles.py` — tile grid planning (`snap_origin`,
  `process_one_tile`), PDAL pipeline construction (`build_pdal_pipeline`),
  skip/overwrite logic and the batch loop in `main`;
* `scripts/lidar/04_build_city_mosaics.py` and `scripts/04_build_city_mosaics.py`
  — construction of the `gdalbuildvrt` index command;
* `scripts/lidar/05_zonal_stats_quadras.py` and
  `scripts/lidar/06_zonal_stats_lotes.py` — pixel area, filtered-raster
  validity, chunked zonal statistics and the derived per-polygon fields.

Real coordinates are modelled by `ℚ` (the Python code uses IEEE doubles; all
quantities of interest here — resolutions, bounds, areas, thresholds — are
decimal literals that the rational model represents exactly).
-/

namespace Mhac

/-! ## Tile grid planner (`scripts/01_build_mhac_tiles.py`) -/

/-- `snap_origin(value, resolution)` from `01_build_mhac_tiles.py` line 47-49:
`math.floor(value / resolution) * resolution`. -/
def snap_origin (value resolution : ℚ) : ℚ :=
  ⌊value / resolution⌋ * resolution

/-- The raster grid computed per tile: origins, pixel counts. -/
structure RasterGrid where
  origin_x : ℚ
  origin_y : ℚ
  width : ℤ
  height : ℤ
  deriving Repr, DecidableEq

/-- Grid derivation from `process_one_tile` (`01_build_mhac_tiles.py` lines
190-194), generalised over the resolution (the script fixes
`RESOLUTION = 1.0`): origins are floor-snapped, sizes are
`math.ceil((max - origin) / resolution)`. -/
def computeGrid (minx miny maxx maxy resolution : ℚ) : RasterGrid :=
  { origin_x := snap_origin minx resolution
    origin_y := snap_origin miny resolution
    width := ⌈(maxx - snap_origin minx resolution) / resolution⌉
    height := ⌈(maxy - snap_origin miny resolution) / resolution⌉ }

/-- Error type used to state the spec's claimed failure mode of the grid
planner. -/
inductive GridError where
  | invalidGeometry
  deriving Repr, DecidableEq

/-- The grid-planning step of `process_one_tile` as a fallible computation.
The source (lines 183-194) performs no validation of the bounds whatsoever —
it unconditionally computes the floor/ceil grid — so the embedding never
returns an error. -/
def computeGridE (minx miny maxx maxy resolution : ℚ) :
    Except GridError RasterGrid :=
  Except.ok (computeGrid minx miny maxx maxy resolution)

/-! ## PDAL pipeline construction (`build_pdal_pipeline`) -/

/-- Acceptance predicate denoted by the stage-3 range-filter limits string
`"Classification![3:5],Classification![19:19]"` of `01_build_mhac_tiles.py`
lines 114-118. PDAL conjoins negated limits on the same dimension, so a point
passes iff its classification is in neither negated interval. LAS
classification codes are 8-bit integers, modelled by `ℕ`. -/
def rangeFilterAccept (c : ℕ) : Bool :=
  decide (¬ (3 ≤ c ∧ c ≤ 5)) && decide (¬ (19 ≤ c ∧ c ≤ 19))

/-- Acceptance predicate denoted by the raster writers' condition
`"(Classification != 3 && Classification != 4 && Classification != 5 &&
Classification != 19)"` of `01_build_mhac_tiles.py` lines 140 and 160. -/
def writerWhereAccept (c : ℕ) : Bool :=
  decide (c ≠ 3) && decide (c ≠ 4) && decide (c ≠ 5) && decide (c ≠ 19)

/-- One stage of the pipeline built by `build_pdal_pipeline`, carrying the
configuration relevant to the claims: file names, CRS override, grid
parameters, and the classification-acceptance predicate denoted by the
`limits` (range stage) or `where` (writer stage) strings. -/
inductive Stage where
  | reader (filename : String) (overrideSrs : String)
  | merge
  | rangeFilter (accept : ℕ → Bool)
  | hagNN
  | writer (filename : String) (dimension : String) (originX originY : ℚ)
      (width height : ℤ) (nodata : ℤ) (accept : ℕ → Bool)

/-- `build_pdal_pipeline` (`01_build_mhac_tiles.py` lines 92-165): one reader
per source file with CRS override `EPSG:31983`, merge, the classification
range filter, `filters.hag_nn` height normalization, then the two
`writers.gdal` stages — dimension `Z` to `out_mds` and `HeightAboveGround`
to `out_hag` — sharing the same grid, nodata `-9999` and `where`
predicate. -/
def build_pdal_pipeline (lazFiles : List String) (origin_x origin_y : ℚ)
    (width height : ℤ) (out_mds out_hag : String) : List Stage :=
  (lazFiles.map fun laz => Stage.reader laz "EPSG:31983") ++
  [Stage.merge,
   Stage.rangeFilter rangeFilterAccept,
   Stage.hagNN,
   Stage.writer out_mds "Z" origin_x origin_y width height (-9999)
     writerWhereAccept,
   Stage.writer out_hag "HeightAboveGround" origin_x origin_y width height
     (-9999) writerWhereAccept]

/-- The classification predicates of the range-filter stages of a pipeline,
in order. -/
def filterAccepts : List Stage → List (ℕ → Bool)
  | [] => []
  | Stage.rangeFilter a :: ss => a :: filterAccepts ss
  | _ :: ss => filterAccepts ss

/-- The classification predicates of the writer stages of a pipeline, in
order. -/
def writerAccepts : List Stage → List (ℕ → Bool)
  | [] => []
  | Stage.writer _ _ _ _ _ _ _ a :: ss => a :: writerAccepts ss
  | _ :: ss => writerAccepts ss

/-! ## Per-tile processing and the batch loop
(`process_one_tile`, `main` of `01_build_mhac_tiles.py`) -/

/-- The two raster products of a tile. -/
inductive Product where
  | mds
  | hag
  deriving Repr, DecidableEq

/-- Tile-level failures: `laz_files_for_tile` raises `FileNotFoundError` when
the tile's source file is absent (lines 76-85); `run_pdal_pipeline` raises
`RuntimeError` on a non-zero engine exit (lines 168-176). -/
inductive TileError where
  | inputNotFound
  | externalEngineFailure
  deriving Repr, DecidableEq

/-- Non-error outcome of `process_one_tile` for one tile. -/
inductive TileOutcome where
  | skipped
  | ran
  deriving Repr, DecidableEq

/-- The filesystem/engine environment one tile sees: whether each output
product already exists, whether the tile's source point-cloud file exists,
and whether the external engine exits with status zero. -/
structure TileEnv where
  mdsExists : Bool
  hagExists : Bool
  lazExists : Bool
  engineOk : Bool
  deriving Repr, DecidableEq

/-- The observable effect of `process_one_tile` on one tile: its result (an
uncaught Python exception modelled as `Except.error`), the number of external
engine invocations, and the products (re)written. -/
structure TileRun where
  result : Except TileError TileOutcome
  invocations : ℕ
  written : List Product
  deriving Repr

/-- `process_one_tile` (`01_build_mhac_tiles.py` lines 183-224): if both
output products exist and `overwrite` is unset, skip before anything else
(lines 206-208); otherwise resolve the source file, which raises
`FileNotFoundError` when absent (line 210 calling lines 76-85); otherwise
build the pipeline and invoke the engine exactly once (line 223), a non-zero
exit raising `RuntimeError`; a successful run writes both products (both
writers are in the pipeline). -/
def process_one_tile (env : TileEnv) (overwrite : Bool) : TileRun :=
  if env.mdsExists && env.hagExists && !overwrite then
    { result := Except.ok TileOutcome.skipped, invocations := 0, written := [] }
  else if !env.lazExists then
    { result := Except.error TileError.inputNotFound, invocations := 0,
      written := [] }
  else if env.engineOk then
    { result := Except.ok TileOutcome.ran, invocations := 1,
      written := [Product.mds, Product.hag] }
  else
    { result := Except.error TileError.externalEngineFailure,
      invocations := 1, written := [] }

/-- The batch loop of `main` (`01_build_mhac_tiles.py` lines 256-257):
`process_one_tile` is called on each footprint row in order, with no
exception handling around the call. The loop returns the outcomes of the
tiles processed before any failure, paired with the first failure (if any),
which terminates the loop. -/
def mainLoop (overwrite : Bool) : List TileEnv → List TileOutcome × Option TileError
  | [] => ([], none)
  | env :: rest =>
    match (process_one_tile env overwrite).result with
    | Except.error e => ([], some e)
    | Except.ok o =>
      let r := mainLoop overwrite rest
      (o :: r.1, r.2)

/-! ## City mosaic assembly: virtual-index construction
(`scripts/lidar/04_build_city_mosaics.py` and the older
`scripts/04_build_city_mosaics.py`) -/

/-- A file written to disk: path and content. -/
structure FileWrite where
  path : String
  content : String
  deriving Repr, DecidableEq

/-- Content of the indirection file written by
`scripts/lidar/04_build_city_mosaics.py` line 69:
`"\n".join(str(p) for p in tifs)`. -/
def lidarVrtFilelistContent (tifs : List String) : String :=
  String.intercalate "\n" tifs

/-- The `gdalbuildvrt` argv of `scripts/lidar/04_build_city_mosaics.py`
lines 76-80: only the indirection file and the output path. -/
def lidarVrtCmd (filelistPath vrtPath : String) : List String :=
  ["gdalbuildvrt", "-input_file_list", filelistPath, vrtPath]

/-- The index-construction stage of the lidar mosaic script (lines 68-80):
write the tile paths to the indirection file, then issue the command. -/
def lidarIndexStage (tifs : List String) (filelistPath vrtPath : String) :
    FileWrite × List String :=
  ({ path := filelistPath, content := lidarVrtFilelistContent tifs },
   lidarVrtCmd filelistPath vrtPath)

/-- The `gdalbuildvrt` argv of the older `scripts/04_build_city_mosaics.py`
lines 105-109: every tile path is spliced into the command line (`*tifs`). -/
def legacyVrtCmd (vrtPath : String) (tifs : List String) : List String :=
  ["gdalbuildvrt", vrtPath] ++ tifs

/-- The index-construction stage of the older mosaic script. -/
def legacyIndexStage (tifs : List String) (vrtPath : String) : List String :=
  legacyVrtCmd vrtPath tifs

/-! ## Zonal statistics (`scripts/lidar/05_zonal_stats_quadras.py` and
`scripts/lidar/06_zonal_stats_lotes.py`)

The mosaic raster is modelled over the unit integer lattice (the city
mosaics are 1 m resolution with an axis-aligned transform): cell `(i, j)`
covers the square `[i, i+1] × [j, j+1]` and has center
`(i + 1/2, j + 1/2)`. Parcels are modelled as axis-aligned rectangles,
which keeps the two pixel-selection policies of the scripts exact. -/

/-- `compute_pixel_area` (05 lines 32-36, 06 lines 33-36):
`abs(res_x * res_y)`. -/
def compute_pixel_area (res_x res_y : ℚ) : ℚ := |res_x * res_y|

/-- The rounding performed by pandas/numpy `.round()` in
`(area_m2 / pixel_area).round()` (05 line 148, 06 lines 183-185): round half
to even. -/
def pdRound (q : ℚ) : ℤ :=
  if q - ⌊q⌋ < 1/2 then ⌊q⌋
  else if 1/2 < q - ⌊q⌋ then ⌊q⌋ + 1
  else if 2 ∣ ⌊q⌋ then ⌊q⌋ else ⌊q⌋ + 1

/-- A single-band raster: a total pixel-value function and the declared
nodata value. -/
structure Raster where
  value : ℤ × ℤ → ℚ
  nodata : ℚ

/-- Pixel validity after `load_filtered_raster` (05 lines 39-55, 06 lines
39-50): every pixel with `data <= min_height` or `data == nodata` is marked
invalid (set to NaN); the remaining pixels are valid. -/
def validPixel (r : Raster) (min_height : ℚ) (c : ℤ × ℤ) : Bool :=
  decide (min_height < r.value c) && decide (r.value c ≠ r.nodata)

/-- A parcel polygon, modelled as the axis-aligned rectangle
`[x0, x1] × [y0, y1]`, with an identifier. -/
structure Parcel where
  id : ℕ
  x0 : ℚ
  y0 : ℚ
  x1 : ℚ
  y1 : ℚ

/-- `gdf.geometry.area` for the rectangle. -/
def Parcel.area (p : Parcel) : ℚ := (p.x1 - p.x0) * (p.y1 - p.y0)

/-- The consecutive integers from `a` to `b` inclusive. -/
def intRange (a b : ℤ) : List ℤ :=
  (List.range (b + 1 - a).toNat).map fun n => a + (n : ℤ)

/-- Pixel-selection policy of `zonal_stats`: with `all_touched=True`
(06 line 216) a cell is selected iff its square overlaps the rectangle's
interior; with the default `all_touched=False` (05 line 190) iff its center
lies strictly inside the rectangle. -/
def cellSelected (allTouched : Bool) (p : Parcel) (c : ℤ × ℤ) : Bool :=
  if allTouched then
    decide ((c.1 : ℚ) < p.x1) && decide (p.x0 < (c.1 : ℚ) + 1) &&
    decide ((c.2 : ℚ) < p.y1) && decide (p.y0 < (c.2 : ℚ) + 1)
  else
    decide (p.x0 < (c.1 : ℚ) + 1/2) && decide ((c.1 : ℚ) + 1/2 < p.x1) &&
    decide (p.y0 < (c.2 : ℚ) + 1/2) && decide ((c.2 : ℚ) + 1/2 < p.y1)

/-- The cells selected for a parcel, in row-major order over a bounding box
(`[⌊x0⌋, ⌈x1⌉] × [⌊y0⌋, ⌈y1⌉]`) that contains every cell either policy can
select. -/
def Parcel.cells (allTouched : Bool) (p : Parcel) : List (ℤ × ℤ) :=
  ((intRange ⌊p.x0⌋ ⌈p.x1⌉).flatMap fun i =>
    (intRange ⌊p.y0⌋ ⌈p.y1⌉).map fun j => ((i, j) : ℤ × ℤ)).filter
    (cellSelected allTouched p)

/-- The valid pixel values `zonal_stats` aggregates for one parcel: the
values of the parcel's selected cells that survived the filter mask. -/
def parcelValues (allTouched : Bool) (r : Raster) (min_height : ℚ)
    (p : Parcel) : List ℚ :=
  ((p.cells allTouched).filter (validPixel r min_height)).map r.value

/-- `np.median` of the valid values: the mean of the middle one or two
elements of the sorted list; `none` when the list is empty. -/
def listMedian (l : List ℚ) : Option ℚ :=
  let s := l.mergeSort fun a b => decide (a ≤ b)
  match s.get? ((s.length - 1) / 2), s.get? (s.length / 2) with
  | some a, some b => some ((a + b) / 2)
  | _, _ => none

/-- Population variance (numpy `std` squared, `ddof = 0`); the script's
`std` statistic is its square root, kept here in squared (rational) form. -/
def listVariance (l : List ℚ) : Option ℚ :=
  if l.length = 0 then none
  else
    let m := l.sum / l.length
    some ((l.map fun x => (x - m) * (x - m)).sum / l.length)

/-- One output record of the zonal aggregation, per (polygon, raster kind,
year). `valid_frac` uses rational division (so it is `0` when
`count_total = 0`, where pandas produces an infinity; theorems about
`valid_frac` therefore carry the hypothesis `0 < count_total`). -/
structure ZonalRecord where
  id : ℕ
  area_m2 : ℚ
  count_total : ℤ
  count_valid : ℕ
  vmin : Option ℚ
  vmax : Option ℚ
  vsum : ℚ
  vmean : Option ℚ
  vmedian : Option ℚ
  variance : Option ℚ
  valid_frac : ℚ
  nodata_frac : ℚ
  valid_area_m2 : ℚ
  year : ℤ
  rasterKind : String
  height_threshold_m : ℚ
  deriving Repr, DecidableEq

/-- The per-parcel record: `area_m2` and `count_total` (05 lines 147-148),
the `zonal_stats` statistics over the filtered raster (05 lines 175-195),
the derived fractions and areas (05 lines 206-208) and the run metadata
(05 lines 211-213). The same computation serves 06 (lines 182-238) with
`allTouched = true`. -/
def processParcel (allTouched : Bool) (r : Raster)
    (min_height pixel_area : ℚ) (year : ℤ) (rasterKind : String)
    (p : Parcel) : ZonalRecord :=
  let vals := parcelValues allTouched r min_height p
  let ct : ℤ := pdRound (p.area / pixel_area)
  { id := p.id
    area_m2 := p.area
    count_total := ct
    count_valid := vals.length
    vmin := vals.min?
    vmax := vals.max?
    vsum := vals.sum
    vmean := if vals.length = 0 then none else some (vals.sum / vals.length)
    vmedian := listMedian vals
    variance := listVariance vals
    valid_frac := (vals.length : ℚ) / (ct : ℚ)
    nodata_frac := 1 - (vals.length : ℚ) / (ct : ℚ)
    valid_area_m2 := (vals.length : ℚ) * pixel_area
    year := year
    rasterKind := rasterKind
    height_threshold_m := min_height }

/-- The chunk partition
`[gdf.iloc[i : i + chunk_size] for i in range(0, len(gdf), chunk_size)]`
(05 lines 165-168): consecutive blocks of `chunkSize` parcels. Total for
every `chunkSize`; it agrees with the Python expression whenever
`chunkSize ≥ 1` (Python raises on step 0). -/
def chunkList (chunkSize : ℕ) : List α → List (List α)
  | [] => []
  | p :: ps =>
    ((p :: ps).take chunkSize) :: chunkList chunkSize (ps.drop (chunkSize - 1))
termination_by l => l.length
decreasing_by
  simp only [List.length_cons, List.length_drop]
  omega

/-- The chunked run (05 lines 170-224): statistics computed chunk by chunk,
chunk results concatenated in order (`pd.concat(all_results,
ignore_index=True)`). -/
def chunkedRun (allTouched : Bool) (r : Raster)
    (min_height pixel_area : ℚ) (year : ℤ) (rasterKind : String)
    (chunkSize : ℕ) (parcels : List Parcel) : List ZonalRecord :=
  ((chunkList chunkSize parcels).map
    (List.map (processParcel allTouched r min_height pixel_area year
      rasterKind))).flatten

/-! ## Theorems -/

/-! ### Basic properties of the floor-snapped origin -/

lemma snap_origin_le (v r : ℚ) (hr : 0 < r) : snap_origin v r ≤ v := by
  rw [snap_origin]
  calc (⌊v / r⌋ : ℚ) * r ≤ (v / r) * r :=
        mul_le_mul_of_nonneg_right (Int.floor_le _) hr.le
    _ = v := div_mul_cancel₀ v hr.ne'

lemma lt_snap_origin_add (v r : ℚ) (hr : 0 < r) : v < snap_origin v r + r := by
  rw [snap_origin]
  have h := Int.lt_floor_add_one (v / r)
  have h2 : v / r * r < ((⌊v / r⌋ : ℚ) + 1) * r :=
    mul_lt_mul_of_pos_right h hr
  rw [div_mul_cancel₀ v hr.ne'] at h2
  linarith

lemma le_snap_add_ceil_mul (o maxv r : ℚ) (hr : 0 < r) :
    maxv ≤ o + (⌈(maxv - o) / r⌉ : ℚ) * r := by
  have h : (maxv - o) / r ≤ (⌈(maxv - o) / r⌉ : ℚ) := Int.le_ceil _
  have h2 : (maxv - o) / r * r ≤ (⌈(maxv - o) / r⌉ : ℚ) * r :=
    mul_le_mul_of_nonneg_right h hr.le
  rw [div_mul_cancel₀ _ hr.ne'] at h2
  linarith

/-- C1: for every footprint bounds and positive resolution, `computeGrid`
returns floor-snapped origins and ceiling-derived sizes; consequently the
origins are lower bounds on the footprint minima, the grid covers the maxima,
and both origins are integer multiples of the resolution. In particular
`snap_origin(123.7, 1.0) = 123.0` and for x-bounds `[123.7, 456.2]` the width
is `⌈(456.2 - 123.0) / 1.0⌉ = 334`. -/
theorem C1_computeGrid_alignment (minx miny maxx maxy r : ℚ) (hr : 0 < r) :
    (computeGrid minx miny maxx maxy r).origin_x = ⌊minx / r⌋ * r ∧
    (computeGrid minx miny maxx maxy r).origin_y = ⌊miny / r⌋ * r ∧
    (computeGrid minx miny maxx maxy r).width =
      ⌈(maxx - ⌊minx / r⌋ * r) / r⌉ ∧
    (computeGrid minx miny maxx maxy r).height =
      ⌈(maxy - ⌊miny / r⌋ * r) / r⌉ ∧
    (computeGrid minx miny maxx maxy r).origin_x ≤ minx ∧
    (computeGrid minx miny maxx maxy r).origin_y ≤ miny ∧
    maxx ≤ (computeGrid minx miny maxx maxy r).origin_x +
      (computeGrid minx miny maxx maxy r).width * r ∧
    maxy ≤ (computeGrid minx miny maxx maxy r).origin_y +
      (computeGrid minx miny maxx maxy r).height * r ∧
    (∃ k : ℤ, (computeGrid minx miny maxx maxy r).origin_x = k * r) ∧
    (∃ k : ℤ, (computeGrid minx miny maxx maxy r).origin_y = k * r) ∧
    snap_origin (1237/10) 1 = 123 ∧
    (computeGrid (1237/10) 0 (2281/5) 0 1).width = 334 := by
  refine ⟨rfl, rfl, rfl, rfl, snap_origin_le minx r hr, snap_origin_le miny r hr,
    le_snap_add_ceil_mul _ maxx r hr, le_snap_add_ceil_mul _ maxy r hr,
    ⟨⌊minx / r⌋, rfl⟩, ⟨⌊miny / r⌋, rfl⟩, by norm_num [snap_origin], ?_⟩
  show (⌈((2281:ℚ)/5 - snap_origin (1237/10) 1) / 1⌉ : ℤ) = 334
  rw [show snap_origin (1237/10) 1 = 123 by norm_num [snap_origin]]
  rw [Int.ceil_eq_iff]
  norm_num

/-- Witness for C1 at `minx = 123.7`, `miny = 0`, `maxx = 456.2`,
`maxy = 10`, `r = 1`. -/
theorem C1_computeGrid_alignment_witness :
    (0:ℚ) < 1 ∧
    ((computeGrid (1237/10) 0 (2281/5) 10 1).origin_x = ⌊(1237:ℚ)/10 / 1⌋ * 1 ∧
     (computeGrid (1237/10) 0 (2281/5) 10 1).origin_y = ⌊(0:ℚ) / 1⌋ * 1 ∧
     (computeGrid (1237/10) 0 (2281/5) 10 1).width =
       ⌈((2281:ℚ)/5 - ⌊(1237:ℚ)/10 / 1⌋ * 1) / 1⌉ ∧
     (computeGrid (1237/10) 0 (2281/5) 10 1).height =
       ⌈((10:ℚ) - ⌊(0:ℚ) / 1⌋ * 1) / 1⌉ ∧
     (computeGrid (1237/10) 0 (2281/5) 10 1).origin_x ≤ 1237/10 ∧
     (computeGrid (1237/10) 0 (2281/5) 10 1).origin_y ≤ 0 ∧
     (2281:ℚ)/5 ≤ (computeGrid (1237/10) 0 (2281/5) 10 1).origin_x +
       (computeGrid (1237/10) 0 (2281/5) 10 1).width * 1 ∧
     (10:ℚ) ≤ (computeGrid (1237/10) 0 (2281/5) 10 1).origin_y +
       (computeGrid (1237/10) 0 (2281/5) 10 1).height * 1 ∧
     (∃ k : ℤ, (computeGrid (1237/10) 0 (2281/5) 10 1).origin_x = k * 1) ∧
     (∃ k : ℤ, (computeGrid (1237/10) 0 (2281/5) 10 1).origin_y = k * 1) ∧
     snap_origin (1237/10) 1 = 123 ∧
     (computeGrid (1237/10) 0 (2281/5) 0 1).width = 334) :=
  ⟨by norm_num, C1_computeGrid_alignment (1237/10) 0 (2281/5) 10 1 (by norm_num)⟩

/-- C7 counterexample: for degenerate bounds (`minx = maxx = 5`,
`miny = 0`, `maxy = 10`, resolution 1 — zero footprint width) the grid step
of `process_one_tile` does NOT fail with `InvalidGeometry`: it returns a
zero-width grid. The source performs no bounds validation at all. -/
theorem C7_counterexample :
    computeGridE 5 0 5 10 1 ≠ Except.error GridError.invalidGeometry ∧
    computeGridE 5 0 5 10 1 =
      Except.ok { origin_x := 5, origin_y := 0, width := 0, height := 10 } := by
  have h5 : (⌊(5:ℚ) / 1⌋ : ℤ) = 5 := by norm_num
  have h0 : (⌊(0:ℚ) / 1⌋ : ℤ) = 0 := by norm_num
  constructor
  · intro h
    simp [computeGridE] at h
  · simp only [computeGridE, computeGrid, snap_origin, h5, h0, Except.ok.injEq,
      RasterGrid.mk.injEq]
    norm_num

/-- C7 (amended): the grid planner performs no validity check on the bounds.
For degenerate bounds (zero footprint width) it does not fail: it returns the
floor/ceil grid, whose degenerate axis has a pixel count of 0 or 1, and the
caller processes such tiles normally. -/
theorem C7_amended_no_validation (minx miny maxy r : ℚ) (hr : 0 < r) :
    computeGridE minx miny minx maxy r =
      Except.ok (computeGrid minx miny minx maxy r) ∧
    0 ≤ (computeGrid minx miny minx maxy r).width ∧
    (computeGrid minx miny minx maxy r).width ≤ 1 := by
  refine ⟨rfl, ?_, ?_⟩
  · apply Int.ceil_nonneg
    apply div_nonneg _ hr.le
    have := snap_origin_le minx r hr
    linarith
  · have hlt := lt_snap_origin_add minx r hr
    have hle : (minx - snap_origin minx r) / r ≤ 1 := by
      rw [div_le_one hr]
      linarith
    have : (computeGrid minx miny minx maxy r).width =
        ⌈(minx - snap_origin minx r) / r⌉ := rfl
    rw [this]
    exact Int.ceil_le.mpr (by exact_mod_cast hle)

/-- Witness for the amended C7 at `minx = maxx = 5`, `miny = 0`, `maxy = 10`,
`r = 1`. -/
theorem C7_amended_no_validation_witness :
    (0:ℚ) < 1 ∧
    (computeGridE 5 0 5 10 1 = Except.ok (computeGrid 5 0 5 10 1) ∧
     0 ≤ (computeGrid 5 0 5 10 1).width ∧
     (computeGrid 5 0 5 10 1).width ≤ 1) :=
  ⟨by norm_num, C7_amended_no_validation 5 0 10 1 (by norm_num)⟩

/-- C5: the classification-exclusion predicate of the point-filter stage and
the predicate applied at each of the two raster writers are identical: a
pipeline built by `build_pdal_pipeline` has exactly one range-filter stage
carrying `rangeFilterAccept` and exactly two writer stages each carrying
`writerWhereAccept`, and these predicates accept exactly the same
classification codes. -/
theorem C5_exclusion_predicates_identical (lazFiles : List String)
    (ox oy : ℚ) (w h : ℤ) (out_mds out_hag : String) (c : ℕ) :
    filterAccepts (build_pdal_pipeline lazFiles ox oy w h out_mds out_hag) =
      [rangeFilterAccept] ∧
    writerAccepts (build_pdal_pipeline lazFiles ox oy w h out_mds out_hag) =
      [writerWhereAccept, writerWhereAccept] ∧
    rangeFilterAccept c = writerWhereAccept c := by
  refine ⟨?_, ?_, ?_⟩
  · induction lazFiles with
    | nil => rfl
    | cons a l ih =>
      simpa [build_pdal_pipeline, filterAccepts] using ih
  · induction lazFiles with
    | nil => rfl
    | cons a l ih =>
      simpa [build_pdal_pipeline, writerAccepts] using ih
  · rw [Bool.eq_iff_iff]
    simp only [rangeFilterAccept, writerWhereAccept, Bool.and_eq_true,
      decide_eq_true_eq]
    omega

/-- C4 counterexample: a tile whose source file is absent (first tile below;
one product missing, so the skip is not taken) makes the batch loop stop with
`inputNotFound` before any later tile is processed — the second tile, which
on its own processes fine (last conjunct), is never reached. A tile whose
engine invocation fails likewise stops the loop. This refutes the claim that
processing of the remaining tiles continues. -/
theorem C4_counterexample :
    (mainLoop false [⟨true, false, false, true⟩,
      ⟨false, false, true, true⟩]).1.length = 0 ∧
    (mainLoop false [⟨true, false, false, true⟩,
      ⟨false, false, true, true⟩]).2 = some TileError.inputNotFound ∧
    (mainLoop false [⟨false, false, true, false⟩,
      ⟨false, false, true, true⟩]).1.length = 0 ∧
    (mainLoop false [⟨false, false, true, false⟩,
      ⟨false, false, true, true⟩]).2 = some TileError.externalEngineFailure ∧
    (mainLoop false [⟨false, false, true, true⟩]).1.length = 1 :=
  ⟨rfl, rfl, rfl, rfl, rfl⟩

/-- C4 (amended): a failure on one tile — missing source file or non-zero
engine exit — is an uncaught exception in the batch loop of `main`: it is
fatal to the whole run, and none of the remaining tiles are processed. -/
theorem C4_amended_failure_aborts_batch (overwrite : Bool) (env : TileEnv)
    (rest : List TileEnv) (e : TileError)
    (he : (process_one_tile env overwrite).result = Except.error e) :
    mainLoop overwrite (env :: rest) = ([], some e) := by
  simp [mainLoop, he]

/-- Witness for the amended C4: both products exist but overwrite is set, the
source file is absent, so the first tile raises `inputNotFound` and the batch
loop ends with no tile processed. -/
theorem C4_amended_failure_aborts_batch_witness :
    (process_one_tile ⟨true, true, false, false⟩ true).result =
      Except.error TileError.inputNotFound ∧
    mainLoop true [⟨true, true, false, false⟩, ⟨false, false, true, true⟩] =
      ([], some TileError.inputNotFound) :=
  ⟨rfl, C4_amended_failure_aborts_batch true ⟨true, true, false, false⟩
    [⟨false, false, true, true⟩] TileError.inputNotFound rfl⟩

/-- C6 counterexample: a tile with both products missing (so the claim
asserts the pipeline is built and executed) whose source file is absent
performs zero engine invocations — it raises `inputNotFound` instead of
executing the pipeline. -/
theorem C6_counterexample :
    (process_one_tile ⟨false, false, false, true⟩ false).invocations = 0 ∧
    (process_one_tile ⟨false, false, false, true⟩ false).result =
      Except.error TileError.inputNotFound :=
  ⟨rfl, rfl⟩

/-- C6 (amended): for a tile whose source file exists, if both products exist
and overwrite is unset then processing performs zero engine invocations
(skip); if overwrite is set or at least one product is missing, the pipeline
is executed (exactly one engine invocation). Without the source file the
run raises `inputNotFound` instead (see the counterexample). -/
theorem C6_amended_skip_iff (env : TileEnv) (overwrite : Bool)
    (hlaz : env.lazExists = true) :
    ((env.mdsExists && env.hagExists && !overwrite) = true →
      (process_one_tile env overwrite).invocations = 0 ∧
      (process_one_tile env overwrite).result = Except.ok TileOutcome.skipped) ∧
    ((env.mdsExists && env.hagExists && !overwrite) = false →
      (process_one_tile env overwrite).invocations = 1) := by
  obtain ⟨m, h, l, e⟩ := env
  simp only at hlaz
  subst hlaz
  cases m <;> cases h <;> cases e <;> cases overwrite <;>
    simp [process_one_tile]

/-- Witness for the amended C6: both products present, no overwrite, source
present — zero invocations. -/
theorem C6_amended_skip_iff_witness :
    (TileEnv.mk true true true true).lazExists = true ∧
    ((((TileEnv.mk true true true true).mdsExists &&
        (TileEnv.mk true true true true).hagExists && !false) = true →
      (process_one_tile ⟨true, true, true, true⟩ false).invocations = 0 ∧
      (process_one_tile ⟨true, true, true, true⟩ false).result =
        Except.ok TileOutcome.skipped) ∧
     (((TileEnv.mk true true true true).mdsExists &&
        (TileEnv.mk true true true true).hagExists && !false) = false →
      (process_one_tile ⟨true, true, true, true⟩ false).invocations = 1)) :=
  ⟨rfl, C6_amended_skip_iff ⟨true, true, true, true⟩ false rfl⟩

/-- C10 counterexample: a tile with exactly one product present (MDS yes,
HAG no) and no source file does not run the full pipeline as the claim
asserts: it performs zero invocations, writes nothing, and raises
`inputNotFound`. -/
theorem C10_counterexample :
    (process_one_tile ⟨true, false, false, true⟩ false).invocations = 0 ∧
    (process_one_tile ⟨true, false, false, true⟩ false).written = [] ∧
    (process_one_tile ⟨true, false, false, true⟩ false).result =
      Except.error TileError.inputNotFound :=
  ⟨rfl, rfl, rfl⟩

/-- C10 (amended): without the overwrite flag, a tile with both products
present is skipped before the source file is ever checked — no
`inputNotFound` can arise even when every source file is absent; a tile with
exactly one product present is not skipped, and provided its source file
exists and the engine succeeds, the full pipeline runs and rewrites both
products. -/
theorem C10_amended_skip_before_source_check (env : TileEnv) :
    (env.mdsExists = true → env.hagExists = true →
      (process_one_tile env false).result = Except.ok TileOutcome.skipped ∧
      (process_one_tile env false).result ≠
        Except.error TileError.inputNotFound) ∧
    (env.mdsExists ≠ env.hagExists → env.lazExists = true →
      env.engineOk = true →
      (process_one_tile env false).result = Except.ok TileOutcome.ran ∧
      (process_one_tile env false).invocations = 1 ∧
      (process_one_tile env false).written = [Product.mds, Product.hag]) := by
  obtain ⟨m, h, l, e⟩ := env
  cases m <;> cases h <;> cases l <;> cases e <;> simp [process_one_tile]

/-- Witness for the amended C10: both products present and every source file
absent — the tile is skipped and no `inputNotFound` is raised; the claim's
converse branch is vacuous at this input. -/
theorem C10_amended_skip_before_source_check_witness :
    (((TileEnv.mk true true false true).mdsExists = true →
      (TileEnv.mk true true false true).hagExists = true →
      (process_one_tile ⟨true, true, false, true⟩ false).result =
        Except.ok TileOutcome.skipped ∧
      (process_one_tile ⟨true, true, false, true⟩ false).result ≠
        Except.error TileError.inputNotFound) ∧
     ((TileEnv.mk true true false true).mdsExists ≠
        (TileEnv.mk true true false true).hagExists →
      (TileEnv.mk true true false true).lazExists = true →
      (TileEnv.mk true true false true).engineOk = true →
      (process_one_tile ⟨true, true, false, true⟩ false).result =
        Except.ok TileOutcome.ran ∧
      (process_one_tile ⟨true, true, false, true⟩ false).invocations = 1 ∧
      (process_one_tile ⟨true, true, false, true⟩ false).written =
        [Product.mds, Product.hag])) :=
  C10_amended_skip_before_source_check ⟨true, true, false, true⟩

/-- C9 counterexample: the older mosaic script
(`scripts/04_build_city_mosaics.py`) passes each tile path as an individual
command-line argument to `gdalbuildvrt` — here a concrete tile path appears
in its argv — refuting "never as individual command-line arguments" for
every mosaic assembly run. The lidar script's argv, by contrast, does not
contain the tile path. -/
theorem C9_counterexample :
    "mds_tile_a.tif" ∈
      legacyIndexStage ["mds_tile_a.tif", "mds_tile_b.tif"] "mds_2017.vrt" ∧
    "mds_tile_a.tif" ∉
      (lidarIndexStage ["mds_tile_a.tif", "mds_tile_b.tif"]
        "mds_2017_tiles.txt" "mds_2017.vrt").2 := by
  constructor
  · simp [legacyIndexStage, legacyVrtCmd]
  · simp [lidarIndexStage, lidarVrtCmd]

/-- C9 (amended): the lidar mosaic script's index construction passes tile
paths through the indirection file only — its argv is a fixed four-element
list independent of the tile list, and the file content is the
newline-joined path list; the older top-level mosaic script instead passes
every tile path as an individual command-line argument. -/
theorem C9_amended_indirection_file (tifs tifs' : List String)
    (filelistPath vrtPath t : String) (ht : t ∈ tifs) :
    (lidarIndexStage tifs filelistPath vrtPath).2 =
      (lidarIndexStage tifs' filelistPath vrtPath).2 ∧
    (lidarIndexStage tifs filelistPath vrtPath).2.length = 4 ∧
    (lidarIndexStage tifs filelistPath vrtPath).1.content =
      String.intercalate "\n" tifs ∧
    t ∈ legacyIndexStage tifs vrtPath :=
  ⟨rfl, rfl, rfl, List.mem_append_right _ ht⟩

/-- Witness for the amended C9 at a two-tile list. -/
theorem C9_amended_indirection_file_witness :
    "a.tif" ∈ ["a.tif", "b.tif"] ∧
    ((lidarIndexStage ["a.tif", "b.tif"] "fl.txt" "out.vrt").2 =
      (lidarIndexStage ["c.tif"] "fl.txt" "out.vrt").2 ∧
     (lidarIndexStage ["a.tif", "b.tif"] "fl.txt" "out.vrt").2.length = 4 ∧
     (lidarIndexStage ["a.tif", "b.tif"] "fl.txt" "out.vrt").1.content =
       String.intercalate "\n" ["a.tif", "b.tif"] ∧
     "a.tif" ∈ legacyIndexStage ["a.tif", "b.tif"] "out.vrt") :=
  ⟨by simp, C9_amended_indirection_file ["a.tif", "b.tif"] ["c.tif"]
    "fl.txt" "out.vrt" "a.tif" (by simp)⟩

/-- C2 counterexample: a non-degenerate rectangle of area `0.84 m²`
(`[0.3, 1.7] × [0.3, 0.9]`) over an all-valid 1 m raster, processed as in
`06_zonal_stats_lotes.py` (`all_touched=True`, threshold 2 m, nodata
`-9999`): `count_total = round(0.84) = 1` but the polygon touches two valid
pixels, so `valid_frac = 2 ∉ [0, 1]` and `nodata_frac = -1 ∉ [0, 1]`. -/
theorem C2_counterexample :
    ((3:ℚ)/10 < 17/10 ∧ (3:ℚ)/10 < 9/10) ∧
    (processParcel true ⟨fun _ => 10, -9999⟩ 2 1 2024 "hag"
        ⟨7, 3/10, 3/10, 17/10, 9/10⟩).count_valid = 2 ∧
    (processParcel true ⟨fun _ => 10, -9999⟩ 2 1 2024 "hag"
        ⟨7, 3/10, 3/10, 17/10, 9/10⟩).count_total = 1 ∧
    (processParcel true ⟨fun _ => 10, -9999⟩ 2 1 2024 "hag"
        ⟨7, 3/10, 3/10, 17/10, 9/10⟩).valid_frac = 2 ∧
    ¬ (processParcel true ⟨fun _ => 10, -9999⟩ 2 1 2024 "hag"
        ⟨7, 3/10, 3/10, 17/10, 9/10⟩).valid_frac ≤ 1 ∧
    (processParcel true ⟨fun _ => 10, -9999⟩ 2 1 2024 "hag"
        ⟨7, 3/10, 3/10, 17/10, 9/10⟩).nodata_frac = -1 := by
  have h1 : (⌊(3/10 : ℚ)⌋ : ℤ) = 0 := by norm_num
  have h2 : (⌈(17/10 : ℚ)⌉ : ℤ) = 2 := by
    rw [Int.ceil_eq_iff]
    norm_num
  have h3 : (⌈(9/10 : ℚ)⌉ : ℤ) = 1 := by
    rw [Int.ceil_eq_iff]
    norm_num
  have hcells :
      Parcel.cells true ⟨7, 3/10, 3/10, 17/10, 9/10⟩ = [(0, 0), (1, 0)] := by
    simp only [Parcel.cells, h1, h2, h3]
    norm_num [intRange, cellSelected, List.range_succ, Int.toNat_ofNat,
      List.range_zero, List.filter]
  have hvals : parcelValues true ⟨fun _ => 10, -9999⟩ 2
      ⟨7, 3/10, 3/10, 17/10, 9/10⟩ = [10, 10] := by
    simp only [parcelValues, hcells]
    norm_num [validPixel, List.filter]
  have hct : pdRound (Parcel.area ⟨7, 3/10, 3/10, 17/10, 9/10⟩ / 1) = 1 := by
    have harea : Parcel.area ⟨7, 3/10, 3/10, 17/10, 9/10⟩ / 1 = 21/25 := by
      simp only [Parcel.area]
      norm_num
    have hfl : (⌊(21:ℚ)/25⌋ : ℤ) = 0 := by norm_num
    rw [pdRound, harea, hfl]
    norm_num
  refine ⟨⟨by norm_num, by norm_num⟩, ?_⟩
  simp only [processParcel, hvals, hct]
  norm_num

/-- C2 (amended): whenever `count_total > 0`, `valid_frac` is nonnegative
and equals `count_valid / count_total`, with `nodata_frac = 1 - valid_frac`;
but `valid_frac ≤ 1` holds exactly when `count_valid ≤ count_total`, which
the pixel-selection policy does not guarantee — with `all_touched=True` even
a non-degenerate polygon can touch more valid pixels than
`round(area / pixel_area)` (see the counterexample), so `valid_frac` can
exceed 1 and `nodata_frac` can be negative. -/
theorem C2_amended_valid_frac_bounds (allTouched : Bool) (r : Raster)
    (min_height pixel_area : ℚ) (year : ℤ) (kind : String) (p : Parcel)
    (hct : 0 < (processParcel allTouched r min_height pixel_area year kind
      p).count_total) :
    0 ≤ (processParcel allTouched r min_height pixel_area year kind
      p).valid_frac ∧
    ((processParcel allTouched r min_height pixel_area year kind
        p).valid_frac ≤ 1 ↔
      ((processParcel allTouched r min_height pixel_area year kind
          p).count_valid : ℤ) ≤
        (processParcel allTouched r min_height pixel_area year kind
          p).count_total) ∧
    (processParcel allTouched r min_height pixel_area year kind
        p).nodata_frac =
      1 - (processParcel allTouched r min_height pixel_area year kind
        p).valid_frac := by
  have hct' : (0:ℤ) < pdRound (p.area / pixel_area) := by
    simpa only [processParcel] using hct
  have hpos : (0:ℚ) < ((pdRound (p.area / pixel_area) : ℤ) : ℚ) := by
    exact_mod_cast hct'
  refine ⟨?_, ?_, rfl⟩
  · simp only [processParcel]
    exact div_nonneg (by positivity) hpos.le
  · simp only [processParcel]
    rw [div_le_one hpos]
    exact ⟨fun h => by exact_mod_cast h, fun h => by exact_mod_cast h⟩

/-- Witness for the amended C2: the unit-resolution rectangle
`[0, 2] × [0, 1]` has `count_total = 2 > 0`. -/
theorem C2_amended_valid_frac_bounds_witness :
    0 < (processParcel false ⟨fun _ => 10, -9999⟩ 2 1 2024 "hag"
      ⟨3, 0, 0, 2, 1⟩).count_total ∧
    (0 ≤ (processParcel false ⟨fun _ => 10, -9999⟩ 2 1 2024 "hag"
      ⟨3, 0, 0, 2, 1⟩).valid_frac ∧
    ((processParcel false ⟨fun _ => 10, -9999⟩ 2 1 2024 "hag"
        ⟨3, 0, 0, 2, 1⟩).valid_frac ≤ 1 ↔
      ((processParcel false ⟨fun _ => 10, -9999⟩ 2 1 2024 "hag"
          ⟨3, 0, 0, 2, 1⟩).count_valid : ℤ) ≤
        (processParcel false ⟨fun _ => 10, -9999⟩ 2 1 2024 "hag"
          ⟨3, 0, 0, 2, 1⟩).count_total) ∧
    (processParcel false ⟨fun _ => 10, -9999⟩ 2 1 2024 "hag"
        ⟨3, 0, 0, 2, 1⟩).nodata_frac =
      1 - (processParcel false ⟨fun _ => 10, -9999⟩ 2 1 2024 "hag"
        ⟨3, 0, 0, 2, 1⟩).valid_frac) := by
  have hct : 0 < (processParcel false ⟨fun _ => 10, -9999⟩ 2 1 2024 "hag"
      ⟨3, 0, 0, 2, 1⟩).count_total := by
    have harea : Parcel.area ⟨3, 0, 0, 2, 1⟩ / 1 = 2 := by
      simp only [Parcel.area]
      norm_num
    have hfl : (⌊(2:ℚ)⌋ : ℤ) = 2 := by norm_num
    simp only [processParcel, pdRound, harea, hfl]
    norm_num
  exact ⟨hct, C2_amended_valid_frac_bounds false ⟨fun _ => 10, -9999⟩ 2 1
    2024 "hag" ⟨3, 0, 0, 2, 1⟩ hct⟩

/-- Every chunk list flattens back to the original list (for any positive
chunk size). -/
lemma chunkList_flatten {α : Type} (cs : ℕ) (hcs : 1 ≤ cs) (l : List α) :
    (chunkList cs l).flatten = l := by
  generalize hn : l.length = n
  induction n using Nat.strong_induction_on generalizing l with
  | _ n ih =>
    cases l with
    | nil => simp [chunkList]
    | cons p ps =>
      rw [chunkList, List.flatten_cons,
        ih (ps.drop (cs - 1)).length ?_ _ rfl]
      · obtain ⟨m, rfl⟩ : ∃ m, cs = m + 1 := ⟨cs - 1, by omega⟩
        simp [List.take_succ_cons, List.take_append_drop]
      · subst hn
        simp only [List.length_drop, List.length_cons]
        omega

/-- C3: for every chunk size ≥ 1, computing per-polygon statistics chunk by
chunk and concatenating the chunk results in order yields exactly the record
sequence of the unchunked run (same polygon order and identity, same
statistic values and metadata, same `count_total`); hence any two positive
chunk sizes agree. -/
theorem C3_chunking_invariant (allTouched : Bool) (r : Raster)
    (min_height pixel_area : ℚ) (year : ℤ) (kind : String)
    (cs cs' : ℕ) (ps : List Parcel) (hcs : 1 ≤ cs) (hcs' : 1 ≤ cs') :
    chunkedRun allTouched r min_height pixel_area year kind cs ps =
      ps.map (processParcel allTouched r min_height pixel_area year kind) ∧
    chunkedRun allTouched r min_height pixel_area year kind cs ps =
      chunkedRun allTouched r min_height pixel_area year kind cs' ps := by
  have key : ∀ c : ℕ, 1 ≤ c →
      chunkedRun allTouched r min_height pixel_area year kind c ps =
        ps.map (processParcel allTouched r min_height pixel_area year
          kind) := by
    intro c hc
    rw [chunkedRun, ← List.map_flatten, chunkList_flatten c hc]
  exact ⟨key cs hcs, (key cs hcs).trans (key cs' hcs').symm⟩

/-- Witness for C3 at chunk sizes 2 and 3 over three concrete parcels. -/
theorem C3_chunking_invariant_witness :
    (1 ≤ 2 ∧ 1 ≤ 3) ∧
    (chunkedRun true ⟨fun _ => 10, -9999⟩ 2 1 2024 "hag" 2
        [⟨0, 0, 0, 1, 1⟩, ⟨1, 1, 0, 2, 1⟩, ⟨2, 2, 0, 3, 1⟩] =
      [⟨0, 0, 0, 1, 1⟩, ⟨1, 1, 0, 2, 1⟩, ⟨2, 2, 0, 3, 1⟩].map
        (processParcel true ⟨fun _ => 10, -9999⟩ 2 1 2024 "hag") ∧
    chunkedRun true ⟨fun _ => 10, -9999⟩ 2 1 2024 "hag" 2
        [⟨0, 0, 0, 1, 1⟩, ⟨1, 1, 0, 2, 1⟩, ⟨2, 2, 0, 3, 1⟩] =
      chunkedRun true ⟨fun _ => 10, -9999⟩ 2 1 2024 "hag" 3
        [⟨0, 0, 0, 1, 1⟩, ⟨1, 1, 0, 2, 1⟩, ⟨2, 2, 0, 3, 1⟩]) :=
  ⟨⟨by norm_num, by norm_num⟩,
    C3_chunking_invariant true ⟨fun _ => 10, -9999⟩ 2 1 2024 "hag" 2 3
      [⟨0, 0, 0, 1, 1⟩, ⟨1, 1, 0, 2, 1⟩, ⟨2, 2, 0, 3, 1⟩]
      (by norm_num) (by norm_num)⟩

set_option maxRecDepth 100000 in
/-- C8: every output record satisfies
`count_total = round(area / pixel_area)` with
`pixel_area = |res_x * res_y|`, `valid_frac = count_valid / count_total`,
`nodata_frac = 1 - valid_frac`, `valid_area = count_valid * pixel_area`;
`count_total` is identical across runs differing in raster values,
threshold, touch policy and metadata (it depends only on the polygon's area
and the pixel area). Example: the square `[0, 10] × [0, 10]` (area 100 m²)
on a 1 m raster with 40 valid above-threshold pixels (columns 0-3 hold value
10, the rest 0) gets `count_total = 100`, `count_valid = 40`,
`valid_frac = 2/5`, `nodata_frac = 3/5`, `valid_area = 40`. -/
theorem C8_record_arithmetic (allTouched allTouched' : Bool)
    (r r' : Raster) (min_height min_height' res_x res_y : ℚ)
    (year year' : ℤ) (kind kind' : String) (p : Parcel) :
    (processParcel allTouched r min_height (compute_pixel_area res_x res_y)
        year kind p).count_total =
      pdRound ((processParcel allTouched r min_height
        (compute_pixel_area res_x res_y) year kind p).area_m2 /
          |res_x * res_y|) ∧
    (processParcel allTouched r min_height (compute_pixel_area res_x res_y)
        year kind p).valid_frac =
      ((processParcel allTouched r min_height (compute_pixel_area res_x
          res_y) year kind p).count_valid : ℚ) /
        ((processParcel allTouched r min_height (compute_pixel_area res_x
          res_y) year kind p).count_total : ℚ) ∧
    (processParcel allTouched r min_height (compute_pixel_area res_x res_y)
        year kind p).nodata_frac =
      1 - (processParcel allTouched r min_height (compute_pixel_area res_x
        res_y) year kind p).valid_frac ∧
    (processParcel allTouched r min_height (compute_pixel_area res_x res_y)
        year kind p).valid_area_m2 =
      ((processParcel allTouched r min_height (compute_pixel_area res_x
          res_y) year kind p).count_valid : ℚ) * |res_x * res_y| ∧
    (processParcel allTouched' r' min_height' (compute_pixel_area res_x
        res_y) year' kind' p).count_total =
      (processParcel allTouched r min_height (compute_pixel_area res_x
        res_y) year kind p).count_total ∧
    (processParcel false ⟨fun c => if c.1 < 4 then 10 else 0, -9999⟩ 2
        (compute_pixel_area 1 1) 2024 "hag" ⟨1, 0, 0, 10, 10⟩).count_total
      = 100 ∧
    (processParcel false ⟨fun c => if c.1 < 4 then 10 else 0, -9999⟩ 2
        (compute_pixel_area 1 1) 2024 "hag" ⟨1, 0, 0, 10, 10⟩).count_valid
      = 40 ∧
    (processParcel false ⟨fun c => if c.1 < 4 then 10 else 0, -9999⟩ 2
        (compute_pixel_area 1 1) 2024 "hag" ⟨1, 0, 0, 10, 10⟩).valid_frac
      = 2/5 ∧
    (processParcel false ⟨fun c => if c.1 < 4 then 10 else 0, -9999⟩ 2
        (compute_pixel_area 1 1) 2024 "hag" ⟨1, 0, 0, 10, 10⟩).nodata_frac
      = 3/5 ∧
    (processParcel false ⟨fun c => if c.1 < 4 then 10 else 0, -9999⟩ 2
        (compute_pixel_area 1 1) 2024 "hag" ⟨1, 0, 0, 10, 10⟩).valid_area_m2
      = 40 := by
  have hpa : compute_pixel_area 1 1 = 1 := by
    rw [compute_pixel_area]
    norm_num
  have h1 : (⌊(0 : ℚ)⌋ : ℤ) = 0 := by norm_num
  have h2 : (⌈(10 : ℚ)⌉ : ℤ) = 10 := by
    rw [Int.ceil_eq_iff]
    norm_num
  have hvals : (parcelValues false ⟨fun c => if c.1 < 4 then 10 else 0,
      -9999⟩ 2 ⟨1, 0, 0, 10, 10⟩).length = 40 := by
    simp only [parcelValues, Parcel.cells, h1, h2]
    norm_num [intRange, cellSelected, validPixel, List.range_succ,
      Int.toNat_ofNat, List.range_zero, List.filter]
  have hct : pdRound (Parcel.area ⟨1, 0, 0, 10, 10⟩ /
      compute_pixel_area 1 1) = 100 := by
    have harea : Parcel.area ⟨1, 0, 0, 10, 10⟩ / compute_pixel_area 1 1 =
        100 := by
      simp only [Parcel.area, hpa]
      norm_num
    have hfl : (⌊(100:ℚ)⌋ : ℤ) = 100 := by norm_num
    rw [pdRound, harea, hfl]
    norm_num
  refine ⟨rfl, rfl, rfl, rfl, rfl, ?_, ?_, ?_, ?_, ?_⟩
  · simp only [processParcel, hct]
  · simp only [processParcel, hvals]
  · simp only [processParcel, hvals, hct]
    norm_num
  · simp only [processParcel, hvals, hct]
    norm_num
  · simp only [processParcel, hvals, hpa]
    norm_num

end Mhac
